import Mathlib

/-!
Verification of the deployment-configuration module
`src/config/__init__.py` of the WBTC-USDC Uniswap V3 Sett vault
repository.

The module is a flat sequence of top-level assignments.  We embed it at
two levels:

1. Declaration level: each literal assignment becomes a Lean constant
   with the same name, so claims about the declared values (fee ranges,
   address formats, the FEES triple) can be checked directly.

2. Module-evaluation level: a small statement language with Python-like
   sequential assignment semantics over a name environment, in which
   reading an unbound name yields a name-lookup error.  The module text
   is translated statement by statement (the commented-out
   `REWARD_TOKEN = ""` line is a comment, hence absent), which lets us
   settle the claims about what actually happens when the module is
   imported: evaluation aborts at the `PROTECTED_TOKENS` assignment
   because `REWARD_TOKEN` is unbound.
-/

/-! ## Declaration-level constants, copied verbatim from the source -/

def BADGER_DEV_MULTISIG : String := "0xb65cef03b9b89f99517643226d76e286ee999e77"

def WANT : String := "0xA0b86991c6218b36c1d19D4a2e9Eb0cE3606eB48"

def LP_COMPONENT : String := "0x99ac8cA7087fA4A2A1FB6357269965A2014ABc35"

def DEFAULT_GOV_PERFORMANCE_FEE : Int := 1000

def DEFAULT_PERFORMANCE_FEE : Int := 1000

def DEFAULT_WITHDRAWAL_FEE : Int := 10

def FEES : List Int := [DEFAULT_GOV_PERFORMANCE_FEE, DEFAULT_PERFORMANCE_FEE, DEFAULT_WITHDRAWAL_FEE]

def REGISTRY : String := "0xFda7eB6f8b7a9e9fCFd348042ae675d1d652454f"

/-- A 20-byte blockchain address in hex form: the character list is
`'0' :: 'x' ::` exactly 40 hexadecimal digits. -/
def isHexChar (c : Char) : Bool :=
  (Char.ofNat 48 ≤ c && c ≤ Char.ofNat 57) ||
  (Char.ofNat 97 ≤ c && c ≤ Char.ofNat 102) ||
  (Char.ofNat 65 ≤ c && c ≤ Char.ofNat 70)

def isValidAddress (s : String) : Bool :=
  match s.data with
  | '0' :: 'x' :: rest => rest.length == 40 && rest.all isHexChar
  | _ => false

/-! ## Module-evaluation level -/

/-- Runtime values of the configuration module: strings, integers and
lists of values (the module only ever builds flat lists of previously
bound names, so list elements are atoms). -/
inductive Value
  | str : String → Value
  | int : Int → Value
  | list : List Value → Value

/-- Evaluation errors.  The only error the module can raise is a
name-lookup failure (Python `NameError`). -/
inductive Err
  | nameError : String → Err
deriving DecidableEq, Repr

/-- Atomic expressions: literals and name references.  `worldRead`
models an expression whose value depends on the external world
(environment variables, file reads, network); the configuration module
contains none, which is what makes its load deterministic. -/
inductive Atom
  | strLit : String → Atom
  | intLit : Int → Atom
  | name : String → Atom
  | worldRead : Nat → Atom
deriving DecidableEq, Repr

/-- Right-hand sides occurring in the module: an atom, or a list
display whose elements are atoms (all list displays in the source are
flat lists of names). -/
inductive Expr
  | atom : Atom → Expr
  | listE : List Atom → Expr
deriving DecidableEq, Repr

/-- Top-level statements.  The source consists solely of plain
assignments; the other statement forms (augmented assignment, `del`,
bare expression statement) are included so that the immutability claim
— every binding is a single plain assignment — is a real check on the
translated module rather than a vacuous one. -/
inductive Stmt
  | assign : String → Expr → Stmt
  | augAssign : String → Expr → Stmt
  | remove : String → Stmt
  | exprStmt : Expr → Stmt
deriving DecidableEq, Repr

/-- The external world an expression could read from. -/
def World : Type := Nat → Int

/-- A module namespace: names bound so far, most recent binding
first. -/
def Env : Type := List (String × Value)

def lookupEnv (env : Env) (x : String) : Option Value :=
  match env with
  | [] => none
  | (y, v) :: rest => if y = x then some v else lookupEnv rest x

def bindEnv (env : Env) (x : String) (v : Value) : Env :=
  (x, v) :: env

def dropEnv (env : Env) (x : String) : Env :=
  match env with
  | [] => []
  | (y, v) :: rest => if y = x then dropEnv rest x else (y, v) :: dropEnv rest x

def evalAtom (w : World) (env : Env) : Atom → Except Err Value
  | Atom.strLit s => Except.ok (Value.str s)
  | Atom.intLit n => Except.ok (Value.int n)
  | Atom.name x =>
    match lookupEnv env x with
    | some v => Except.ok v
    | none => Except.error (Err.nameError x)
  | Atom.worldRead k => Except.ok (Value.int (w k))

def evalAtoms (w : World) (env : Env) : List Atom → Except Err (List Value)
  | [] => Except.ok []
  | a :: rest =>
    match evalAtom w env a with
    | Except.error e => Except.error e
    | Except.ok v =>
      match evalAtoms w env rest with
      | Except.error e => Except.error e
      | Except.ok vs => Except.ok (v :: vs)

def evalExpr (w : World) (env : Env) : Expr → Except Err Value
  | Expr.atom a => evalAtom w env a
  | Expr.listE as =>
    match evalAtoms w env as with
    | Except.error e => Except.error e
    | Except.ok vs => Except.ok (Value.list vs)

def execStmt (w : World) (env : Env) : Stmt → Except Err Env
  | Stmt.assign x e =>
    match evalExpr w env e with
    | Except.error err => Except.error err
    | Except.ok v => Except.ok (bindEnv env x v)
  | Stmt.augAssign x e =>
    match lookupEnv env x, evalExpr w env e with
    | none, _ => Except.error (Err.nameError x)
    | some _, Except.error err => Except.error err
    | some v, Except.ok _ => Except.ok (bindEnv env x v)
  | Stmt.remove x =>
    match lookupEnv env x with
    | none => Except.error (Err.nameError x)
    | some _ => Except.ok (dropEnv env x)
  | Stmt.exprStmt e =>
    match evalExpr w env e with
    | Except.error err => Except.error err
    | Except.ok _ => Except.ok env

/-- Run the statements in order.  On an error the bindings made before
the failing statement are reported alongside the error, mirroring the
fact that earlier assignments have already executed when a later line
raises. -/
def execStmts (w : World) : List Stmt → Env → Except (Err × Env) Env
  | [], env => Except.ok env
  | s :: rest, env =>
    match execStmt w env s with
    | Except.error e => Except.error (e, env)
    | Except.ok env2 => execStmts w rest env2

/-- The configuration module `src/config/__init__.py`, statement by
statement.  The line `# REWARD_TOKEN = ""` in the source is a comment,
so no statement binds `REWARD_TOKEN`; the `PROTECTED_TOKENS` list
display nevertheless references that name. -/
def configModule : List Stmt :=
  [ Stmt.assign "BADGER_DEV_MULTISIG" (Expr.atom (Atom.strLit "0xb65cef03b9b89f99517643226d76e286ee999e77")),
    Stmt.assign "WANT" (Expr.atom (Atom.strLit "0xA0b86991c6218b36c1d19D4a2e9Eb0cE3606eB48")),
    Stmt.assign "LP_COMPONENT" (Expr.atom (Atom.strLit "0x99ac8cA7087fA4A2A1FB6357269965A2014ABc35")),
    Stmt.assign "PROTECTED_TOKENS" (Expr.listE [Atom.name "WANT", Atom.name "LP_COMPONENT", Atom.name "REWARD_TOKEN"]),
    Stmt.assign "DEFAULT_GOV_PERFORMANCE_FEE" (Expr.atom (Atom.intLit 1000)),
    Stmt.assign "DEFAULT_PERFORMANCE_FEE" (Expr.atom (Atom.intLit 1000)),
    Stmt.assign "DEFAULT_WITHDRAWAL_FEE" (Expr.atom (Atom.intLit 10)),
    Stmt.assign "FEES" (Expr.listE [Atom.name "DEFAULT_GOV_PERFORMANCE_FEE", Atom.name "DEFAULT_PERFORMANCE_FEE", Atom.name "DEFAULT_WITHDRAWAL_FEE"]),
    Stmt.assign "REGISTRY" (Expr.atom (Atom.strLit "0xFda7eB6f8b7a9e9fCFd348042ae675d1d652454f")) ]

/-- Importing the module: execute its statements in order starting from
an empty namespace. -/
def runModule (w : World) : Except (Err × Env) Env :=
  execStmts w configModule []

/-- The namespace as it stands when the `PROTECTED_TOKENS` line is
reached: the three address constants bound above it. -/
def envBeforeCrash : Env :=
  [ ("LP_COMPONENT", Value.str "0x99ac8cA7087fA4A2A1FB6357269965A2014ABc35"),
    ("WANT", Value.str "0xA0b86991c6218b36c1d19D4a2e9Eb0cE3606eB48"),
    ("BADGER_DEV_MULTISIG", Value.str "0xb65cef03b9b89f99517643226d76e286ee999e77") ]

/-- Syntactic check used by the immutability claim: a statement is a
plain single assignment. -/
def isPlainAssign : Stmt → Bool
  | Stmt.assign _ _ => true
  | _ => false

/-- The name a statement assigns, when it is a plain assignment. -/
def assignedName : Stmt → Option String
  | Stmt.assign x _ => some x
  | _ => none

/-- Environment binding the three declared fee constants to their
declared values, as the module namespace would hold them when the
`FEES` line is reached. -/
def feeEnv : Env :=
  [ ("DEFAULT_WITHDRAWAL_FEE", Value.int 10),
    ("DEFAULT_PERFORMANCE_FEE", Value.int 1000),
    ("DEFAULT_GOV_PERFORMANCE_FEE", Value.int 1000) ]

/-! ## Claim theorems -/

/-- C1: evaluating the configuration module fails when constructing the
protected-token list.  For every external world, running the module
aborts with a name-lookup error on `REWARD_TOKEN` (whose defining
assignment is a comment), the namespace at that point holds only the
three address constants bound above the failing line, and no value was
produced for `PROTECTED_TOKENS`. -/
theorem config_load_fails_with_undefined_reward_token :
    ∀ w : World,
      runModule w = Except.error (Err.nameError "REWARD_TOKEN", envBeforeCrash) ∧
      lookupEnv envBeforeCrash "PROTECTED_TOKENS" = none :=
  fun _ => ⟨rfl, rfl⟩

/-- C2: the declared `FEES` value is exactly the ordered triple
(governance performance fee, strategist performance fee, withdrawal
fee); with the declared values it equals [1000, 1000, 10], every
element is at most 10000, and the `FEES` list display evaluates to that
triple in a namespace binding the three fee constants. -/
theorem fees_equals_ordered_fee_triple :
    FEES = [DEFAULT_GOV_PERFORMANCE_FEE, DEFAULT_PERFORMANCE_FEE, DEFAULT_WITHDRAWAL_FEE] ∧
    FEES = [1000, 1000, 10] ∧
    FEES.all (fun f => decide (f ≤ 10000)) = true ∧
    evalExpr (fun _ => 0) feeEnv
        (Expr.listE [Atom.name "DEFAULT_GOV_PERFORMANCE_FEE", Atom.name "DEFAULT_PERFORMANCE_FEE", Atom.name "DEFAULT_WITHDRAWAL_FEE"]) =
      Except.ok (Value.list [Value.int 1000, Value.int 1000, Value.int 10]) := by
  refine ⟨rfl, by decide, by decide, rfl⟩

/-- C3: each declared fee value (`DEFAULT_GOV_PERFORMANCE_FEE`,
`DEFAULT_PERFORMANCE_FEE`, `DEFAULT_WITHDRAWAL_FEE`) is an integer in
the closed interval [0, 10000]. -/
theorem declared_fees_within_basis_point_range :
    (0 ≤ DEFAULT_GOV_PERFORMANCE_FEE ∧ DEFAULT_GOV_PERFORMANCE_FEE ≤ 10000) ∧
    (0 ≤ DEFAULT_PERFORMANCE_FEE ∧ DEFAULT_PERFORMANCE_FEE ≤ 10000) ∧
    (0 ≤ DEFAULT_WITHDRAWAL_FEE ∧ DEFAULT_WITHDRAWAL_FEE ≤ 10000) := by
  decide

/-- C4 (code bug): the protected-token list is never constructed, so
there is no list whose entries could be checked for duplicates: the
module load aborts with the `REWARD_TOKEN` name error before
`PROTECTED_TOKENS` is bound.  The two entries that are defined, `WANT`
and `LP_COMPONENT`, are indeed distinct. -/
theorem protected_tokens_list_never_bound :
    (∀ w : World, runModule w = Except.error (Err.nameError "REWARD_TOKEN", envBeforeCrash)) ∧
    lookupEnv envBeforeCrash "PROTECTED_TOKENS" = none ∧
    WANT ≠ LP_COMPONENT := by
  refine ⟨fun _ => rfl, rfl, by decide⟩

/-- C5 (code bug): the source expression for `PROTECTED_TOKENS` is the
three-element list display [WANT, LP_COMPONENT, REWARD_TOKEN], not the
two-element sequence the spec intends, and evaluating it in the
namespace holding the bound address constants raises the `REWARD_TOKEN`
name error, so `PROTECTED_TOKENS` never receives any value, let alone
[WANT, LP_COMPONENT]. -/
theorem protected_tokens_source_has_three_entries :
    configModule.get? 3 =
      some (Stmt.assign "PROTECTED_TOKENS"
        (Expr.listE [Atom.name "WANT", Atom.name "LP_COMPONENT", Atom.name "REWARD_TOKEN"])) ∧
    (∀ w : World,
      evalExpr w envBeforeCrash
          (Expr.listE [Atom.name "WANT", Atom.name "LP_COMPONENT", Atom.name "REWARD_TOKEN"]) =
        Except.error (Err.nameError "REWARD_TOKEN")) := by
  refine ⟨by decide, fun _ => rfl⟩

/-- C6: every address-typed constant (`BADGER_DEV_MULTISIG`, `WANT`,
`LP_COMPONENT`, `REGISTRY`) is a "0x" prefix followed by exactly 40
hexadecimal digits. -/
theorem address_constants_valid_hex_format :
    isValidAddress BADGER_DEV_MULTISIG = true ∧
    isValidAddress WANT = true ∧
    isValidAddress LP_COMPONENT = true ∧
    isValidAddress REGISTRY = true := by
  decide

/-- C7: loading the configuration is deterministic and side-effect-free:
the outcome of running the module is the same for every external world
(two loads yield identical bindings and the identical failure), and
every statement of the module is a plain name-binding assignment, so
loading has no observable effect other than binding names. -/
theorem config_load_deterministic :
    (∀ w1 w2 : World, runModule w1 = runModule w2) ∧
    configModule.all isPlainAssign = true := by
  refine ⟨fun _ _ => rfl, by decide⟩

/-- C8: all configuration bindings are single plain constant
assignments: every statement of the module is a plain assignment (no
augmented assignment, deletion or other mutating form), and no name is
assigned twice. -/
theorem config_bindings_single_plain_assignments :
    configModule.all isPlainAssign = true ∧
    (configModule.filterMap assignedName).Nodup := by
  decide

/-- C9: the want token and the LP component token are distinct
addresses. -/
theorem want_ne_lp_component : WANT ≠ LP_COMPONENT := by
  decide

/-- C10: the three declared fee values sum to 2010 basis points,
strictly less than the 10000 basis points that would represent 100%. -/
theorem fees_sum_strictly_below_full_basis :
    DEFAULT_GOV_PERFORMANCE_FEE + DEFAULT_PERFORMANCE_FEE + DEFAULT_WITHDRAWAL_FEE = 2010 ∧
    FEES.sum = 2010 ∧
    FEES.sum < 10000 := by
  decide
